import Mathlib

/-!
Verification of the arsenic free-energy plotting repository
(files freeenergyframework/plotting.py and freeenergyframework/plotlying.py)
against its natural-language specification.

Python strings are modelled as lists of characters, Python floats as exact
rationals (and as reals where square roots appear), numpy arrays as lists.
The statistics module stats.py is not part of the visible sources; where a
claim depends on it, the definition is modelled from the specification and
marked as such in its doc comment.
-/

/-- Characters of a Python string. -/
abbrev Str := List Char

/-- Tests whether the first list is an initial segment of the second
(the primitive used to model Python substring search). -/
def leadsWith : Str → Str → Bool
  | [], _ => true
  | _ :: _, [] => false
  | a :: as, b :: bs => a == b && leadsWith as bs

/-- Tests whether the pattern occurs as a contiguous substring anywhere. -/
def occursIn (pat : Str) : Str → Bool
  | [] => leadsWith pat []
  | c :: t => leadsWith pat (c :: t) || occursIn pat t

/-- First index at or after i where the pattern occurs, if any. -/
def findFrom (pat : Str) : Str → Nat → Option Nat
  | [], i => if leadsWith pat [] then some i else none
  | c :: t, i => if leadsWith pat (c :: t) then some i else findFrom pat t (i + 1)

/-- Model of Python str.find: index of the first occurrence of pat in s,
or -1 when pat does not occur. -/
def pyFind (s pat : Str) : Int :=
  match findFrom pat s 0 with
  | some i => (i : Int)
  | none => -1

/-- The pattern ".html" searched for by the export branches of
plotlying.plot_bar and plotlying._master_plot. -/
def htmlPat : Str := ".html".toList

/-- Outcome of the figure-export step of a plotly-backend plotting call. -/
inductive ExportAction where
  | display
  | writeHtml (filename : Str)
  | writeImage (filename : Str)
  deriving DecidableEq

/-- Export step of plotlying._master_plot (plotlying.py lines 281-286):
show when filename is None, write_html when filename.find(".html") > 0,
write_image otherwise. -/
def plotlyingMasterExport (filename : Option Str) : ExportAction :=
  match filename with
  | none => .display
  | some fn => if 0 < pyFind fn htmlPat then .writeHtml fn else .writeImage fn

/-- Export step of plotlying.plot_bar (plotlying.py lines 119-124), with the
same branch structure as plotlying._master_plot. -/
def plotBarExport (filename : Option Str) : ExportAction :=
  match filename with
  | none => .display
  | some fn => if 0 < pyFind fn htmlPat then .writeHtml fn else .writeImage fn

/-- Modelled from the spec: the extension of a filename, i.e. its final
dot-started suffix (empty when the filename holds no dot).  Used only to
state the specification reading of the export rule. -/
def extOf (fn : Str) : Str :=
  if '.' ∈ fn then '.' :: (fn.reverse.takeWhile (fun c => c ≠ '.')).reverse else []

/-- Modelled from the spec: the export rule as the specification words it,
selecting the format by the filename extension (".html" gives an interactive
document, any other extension a static image). -/
def specExportByExtension (filename : Option Str) : ExportAction :=
  match filename with
  | none => .display
  | some fn => if extOf fn = htmlPat then .writeHtml fn else .writeImage fn

/-- Round a rational to the nearest integer, ties going to the even integer
(the rounding applied when a float is rendered with a fixed number of
decimals). -/
def roundHalfEven (q : ℚ) : ℤ :=
  let f := ⌊q⌋
  let r := q - f
  if r < 1 / 2 then f
  else if 1 / 2 < r then f + 1
  else if f % 2 = 0 then f else f + 1

/-- Model of the Python float format .2f: the value rendered in decimal with
exactly two digits after the decimal point. -/
def pyF2 (q : ℚ) : Str :=
  let m := (roundHalfEven (q * 100)).natAbs
  (if q < 0 then ['-'] else []) ++ Nat.toDigits 10 (m / 100)
    ++ ['.', Nat.digitChar (m / 10 % 10), Nat.digitChar (m % 10)]

/-- Left padding with blanks to a minimum width, as in the Python numeric
format 5.2f. -/
def padLeftTo (w : Nat) (s : Str) : Str :=
  List.replicate (w - s.length) ' ' ++ s

/-- Right padding with blanks to a minimum width, as in the Python string
format 5s. -/
def padRightTo (w : Nat) (s : Str) : Str :=
  s ++ List.replicate (w - s.length) ' '

/-- The kcal/mol unit marker appended by plotting.py line 91. -/
def unitPlotting : Str := "$\\mathrm\x7bkcal\\,mol^\x7b-^1\x7d\x7d$".toList

/-- The kcal/mol unit marker appended by plotlying.py line 241. -/
def unitPlotlying : Str := "kcal mol<sup>-1</sup>".toList

/-- One statistics line of the matplotlib title (plotting.py line 91): the
statistic name, a colon and three blanks, the mle to two decimals, the
bracketed 95 percent bounds to two decimals, the unit marker and a
newline. -/
def statLinePlotting (statistic : Str) (mle low high : ℚ) : Str :=
  statistic ++ ":   ".toList ++ pyF2 mle ++ " [95%: ".toList ++ pyF2 low
    ++ ", ".toList ++ pyF2 high ++ "] ".toList ++ unitPlotting ++ "\n".toList

/-- One statistics line of the plotly title (plotlying.py lines 240-241):
the statistic name and colon right-padded to width 5, the three values in
format 5.2f, the bracketed bounds and the unit marker. -/
def statLinePlotlying (statistic : Str) (mle low high : ℚ) : Str :=
  padRightTo 5 (statistic ++ ":".toList) ++ padLeftTo 5 (pyF2 mle)
    ++ " [95%: ".toList ++ padLeftTo 5 (pyF2 low) ++ ", ".toList
    ++ padLeftTo 5 (pyF2 high) ++ "] ".toList ++ unitPlotlying

/-- The statistics block of the matplotlib title (plotting.py lines 88-92):
one line per requested statistic, in order, each built from the three floats
returned by the estimator for that statistic. -/
def statisticsStringPlotting (est : Str → ℚ × ℚ × ℚ) : List Str → Str
  | [] => []
  | s :: rest =>
      statLinePlotting s (est s).1 (est s).2.1 (est s).2.2
        ++ statisticsStringPlotting est rest

/-- The statistics block of the plotly title (plotlying.py lines 237-242):
the per-statistic lines joined with the break tag. -/
def statisticsStringPlotlying (est : Str → ℚ × ℚ × ℚ) : List Str → Str
  | [] => []
  | [s] => statLinePlotlying s (est s).1 (est s).2.1 (est s).2.2
  | s :: rest =>
      statLinePlotlying s (est s).1 (est s).2.1 (est s).2.2
        ++ "<br>".toList ++ statisticsStringPlotlying est rest

/-- The full matplotlib figure title (plotting.py line 94). -/
def longTitlePlotting (title targetName : Str) (nsamples : Nat)
    (est : Str → ℚ × ℚ × ℚ) (statistics : List Str) : Str :=
  title ++ " \n ".toList ++ targetName ++ " (N = ".toList
    ++ Nat.toDigits 10 nsamples ++ ") \n ".toList
    ++ statisticsStringPlotting est statistics

/-- The full plotly figure title (plotlying.py line 244). -/
def longTitlePlotlying (title targetName : Str) (nsamples : Nat)
    (est : Str → ℚ × ℚ × ℚ) (statistics : List Str) : Str :=
  title ++ "<br>".toList ++ targetName ++ " (N = ".toList
    ++ Nat.toDigits 10 nsamples ++ ")<br>".toList
    ++ statisticsStringPlotlying est statistics

/-- The given pieces occur in the string as disjoint substrings, in order. -/
def piecesInOrder : Str → List Str → Prop
  | _, [] => True
  | s, p :: ps => ∃ a b, s = a ++ p ++ b ∧ piecesInOrder b ps

/-- A run of blank characters. -/
def isSpaceRun (s : Str) : Prop := ∀ c ∈ s, c = ' '

/-- The line format asserted by the specification for a statistics line of a
figure title: the metric name, a colon, the mle rendered to two decimals,
the bracketed 95 percent bounds rendered to two decimals and a kcal/mol unit
marker, with backend-specific alignment blanks in between. -/
def claimedStatLine (unitMark statistic : Str) (mle low high : ℚ)
    (line : Str) : Prop :=
  ∃ sp1 sp2 sp3 tail,
    isSpaceRun sp1 ∧ isSpaceRun sp2 ∧ isSpaceRun sp3 ∧
    line = statistic ++ [':'] ++ sp1 ++ pyF2 mle ++ " [95%: ".toList ++ sp2
      ++ pyF2 low ++ ", ".toList ++ sp3 ++ pyF2 high ++ "] ".toList
      ++ unitMark ++ tail

/-- Arguments of one invocation of stats.bootstrap_statistic made by a
plotting backend. -/
structure EstimatorCall where
  x : List ℚ
  y : List ℚ
  xerr : Option (List ℚ)
  yerr : Option (List ℚ)
  statistic : Str
  deriving DecidableEq

/-- The estimator invocations made by plotting._master_plot (plotting.py
lines 88-92): one call per statistic, passing x, y, xerr and yerr. -/
def plottingEstimatorCalls (x y : List ℚ) (xerr yerr : Option (List ℚ))
    (statistics : List Str) : List EstimatorCall :=
  statistics.map fun s => ⟨x, y, xerr, yerr, s⟩

/-- The estimator invocations made by plotlying._master_plot (plotlying.py
lines 237-241): one call per statistic, passing only x and y, so xerr and
yerr keep the default None even when the caller holds uncertainty arrays
(the binders are underscored because the code never reads them here). -/
def plotlyingEstimatorCalls (x y : List ℚ) (_xerr _yerr : Option (List ℚ))
    (statistics : List Str) : List EstimatorCall :=
  statistics.map fun s => ⟨x, y, none, none, s⟩

/-- Errors of the statistics module, per the specification error taxonomy. -/
inductive StatsError where
  | ShapeMismatch
  | UnknownMetric
  | UndefinedStatistic
  deriving DecidableEq

/-- Final step of a matplotlib master plot: display the figure or save it
to a file. -/
inductive PlotAction where
  | display
  | savefig (filename : Str)
  deriving DecidableEq

/-- Result of a successful matplotlib master-plot call: the full title and
the export action taken at the end. -/
structure MplOutcome where
  longTitle : Str
  action : PlotAction
  deriving DecidableEq

/-- Result of a successful plotly master-plot call. -/
structure PlotlyOutcome where
  longTitle : Str
  action : ExportAction
  deriving DecidableEq

/-- The statistics loop of plotting._master_plot (plotting.py lines 88-92)
with a fallible estimator: statistics are evaluated in order and the first
estimator error aborts the loop. -/
def statLoopPlotting (est : Str → Except StatsError (ℚ × ℚ × ℚ)) :
    List Str → Except StatsError Str
  | [] => .ok []
  | s :: rest =>
      match est s with
      | .error e => .error e
      | .ok r =>
          match statLoopPlotting est rest with
          | .error e => .error e
          | .ok tail => .ok (statLinePlotting s r.1 r.2.1 r.2.2 ++ tail)

/-- The statistics loop of plotlying._master_plot (plotlying.py lines
237-241) with a fallible estimator, collecting the per-statistic lines. -/
def statLoopPlotlying (est : Str → Except StatsError (ℚ × ℚ × ℚ)) :
    List Str → Except StatsError (List Str)
  | [] => .ok []
  | s :: rest =>
      match est s with
      | .error e => .error e
      | .ok r =>
          match statLoopPlotlying est rest with
          | .error e => .error e
          | .ok tail => .ok (statLinePlotlying s r.1 r.2.1 r.2.2 :: tail)

/-- Join with the break tag, as the plotly title block does. -/
def joinBreak : List Str → Str
  | [] => []
  | [s] => s
  | s :: rest => s ++ "<br>".toList ++ joinBreak rest

/-- Control flow of plotting._master_plot (plotting.py lines 88-101) from
the statistics loop on: if every estimator call succeeds the title is built
and the figure is shown (filename None) or saved; an estimator error
propagates and neither happens. -/
def masterPlotRunPlotting (x : List ℚ) (title targetName : Str)
    (est : Str → Except StatsError (ℚ × ℚ × ℚ)) (statistics : List Str)
    (filename : Option Str) : Except StatsError MplOutcome :=
  match statLoopPlotting est statistics with
  | .error e => .error e
  | .ok ss =>
      .ok ⟨title ++ " \n ".toList ++ targetName ++ " (N = ".toList
          ++ Nat.toDigits 10 x.length ++ ") \n ".toList ++ ss,
        match filename with
        | none => .display
        | some fn => .savefig fn⟩

/-- Control flow of plotlying._master_plot (plotlying.py lines 236-286)
from the statistics loop on, with the find-based export branch. -/
def masterPlotRunPlotlying (x : List ℚ) (title targetName : Str)
    (est : Str → Except StatsError (ℚ × ℚ × ℚ)) (statistics : List Str)
    (filename : Option Str) : Except StatsError PlotlyOutcome :=
  match statLoopPlotlying est statistics with
  | .error e => .error e
  | .ok lines =>
      .ok ⟨title ++ "<br>".toList ++ targetName ++ " (N = ".toList
          ++ Nat.toDigits 10 x.length ++ ")<br>".toList ++ joinBreak lines,
        plotlyingMasterExport filename⟩

/-- One relative free-energy result record, as read by plot_DDGs
(plotting.py lines 132-155): experimental and calculated relative free
energy, their uncertainties, the extra analytical error and the two ligand
names. -/
structure RelativeResult where
  exp_DDG : ℚ
  calc_DDG : ℚ
  dexp_DDG : ℚ
  dcalc_DDG : ℚ
  other_dDDG : ℚ
  ligandA : Str
  ligandB : Str
  deriving DecidableEq

/-- The x and y data of plot_DDGs (plotting.py lines 132-150): the raw
(exp_DDG, calc_DDG) pairs when map_positive is false; the raw pairs followed
by their negations when map_positive and symmetrise hold; otherwise each
pair negated whenever its experimental entry is negative. -/
def plotDDGsData (results : List RelativeResult)
    (mapPositive symmetrise : Bool) : List ℚ × List ℚ :=
  if !mapPositive then
    (results.map (·.exp_DDG), results.map (·.calc_DDG))
  else if symmetrise then
    (results.map (·.exp_DDG) ++ results.map (fun r => -r.exp_DDG),
     results.map (·.calc_DDG) ++ results.map (fun r => -r.calc_DDG))
  else
    (results.map fun r => if r.exp_DDG < 0 then -r.exp_DDG else r.exp_DDG,
     results.map fun r => if r.exp_DDG < 0 then -r.calc_DDG else r.calc_DDG)

/-- Everything plot_DDGs hands to a backend master plot. -/
structure DDGsPlotData where
  xData : List ℚ
  yData : List ℚ
  xerr : List ℚ
  yerr : List ℚ
  c : List ℚ
  names : List Str
  deriving DecidableEq

/-- plot_DDGs as a state-passing call (plotting.py lines 132-166): the
payload handed to the backend, paired with the result list as it stands
after the call; the function only reads the records, so the list passes
through unchanged. -/
def plotDDGsCall (results : List RelativeResult)
    (mapPositive symmetrise : Bool) : DDGsPlotData × List RelativeResult :=
  (⟨(plotDDGsData results mapPositive symmetrise).1,
    (plotDDGsData results mapPositive symmetrise).2,
    results.map (·.dexp_DDG),
    results.map (·.dcalc_DDG),
    results.map (·.other_dDDG),
    results.map fun r => r.ligandA ++ ", ".toList ++ r.ligandB⟩,
   results)

/-- Per-node data of the free-energy graph, as read by plot_DGs and
plot_all_DDGs: experimental and calculated absolute free energy and their
uncertainties. -/
structure NodeData where
  f_i_exp : ℚ
  f_i_calc : ℚ
  df_i_exp : ℚ
  df_i_calc : ℚ
  deriving DecidableEq

/-- Arithmetic mean of a list, as numpy.mean computes it. -/
def listMean (l : List ℚ) : ℚ := l.sum / l.length

/-- The x data plot_DGs hands on (plotting.py lines 192 and 199): per-node
experimental free energies shifted by their arithmetic mean. -/
def plotDGsXData (graph : List NodeData) : List ℚ :=
  (graph.map (·.f_i_exp)).map
    (fun v => v - listMean (graph.map (·.f_i_exp)))

/-- The y data plot_DGs hands on (plotting.py lines 193 and 200): per-node
calculated free energies shifted by their arithmetic mean. -/
def plotDGsYData (graph : List NodeData) : List ℚ :=
  (graph.map (·.f_i_calc)).map
    (fun v => v - listMean (graph.map (·.f_i_calc)))

/-- Everything plot_DGs hands to a backend master plot. -/
structure DGsPlotData where
  xData : List ℚ
  yData : List ℚ
  xerr : List ℚ
  yerr : List ℚ
  statistics : List Str
  deriving DecidableEq

/-- plot_DGs as a state-passing call (plotting.py lines 191-213): the
payload handed to the backend, with the mean-centered data, the raw
uncertainty sequences and the four requested statistics, paired with the
graph node list after the call. -/
def plotDGsCall (graph : List NodeData) : DGsPlotData × List NodeData :=
  (⟨plotDGsXData graph, plotDGsYData graph,
    graph.map (·.df_i_exp), graph.map (·.df_i_calc),
    ["RMSE".toList, "MUE".toList, "R2".toList, "rho".toList]⟩,
   graph)

/-- Index pairs (a, b) with a < b < n, in the order produced by
itertools.combinations(range(n), 2) in plotting.py line 249. -/
def combinations2 (n : Nat) : List (Nat × Nat) :=
  (List.range n).flatMap fun a =>
    (List.range' (a + 1) (n - (a + 1))).map fun b => (a, b)

/-- The pairwise-difference list built by the plot_all_DDGs loop (plotting.py
lines 249-258): for every index pair the difference followed by its
negation. -/
def pairDiffs (v : List ℚ) (n : Nat) : List ℚ :=
  (combinations2 n).flatMap fun ab =>
    [v.getD ab.1 0 - v.getD ab.2 0, -(v.getD ab.1 0 - v.getD ab.2 0)]

/-- The pairwise error list built by the plot_all_DDGs loop (plotting.py
lines 253-255 and 259-261): for every index pair, the error in quadrature of
the two node errors, recorded twice. -/
noncomputable def pairErrs (e : List ℚ) (n : Nat) : List ℝ :=
  (combinations2 n).flatMap fun ab =>
    [Real.sqrt (((e.getD ab.1 0 : ℝ)) ^ 2 + ((e.getD ab.2 0 : ℝ)) ^ 2),
     Real.sqrt (((e.getD ab.1 0 : ℝ)) ^ 2 + ((e.getD ab.2 0 : ℝ)) ^ 2)]

/-- Everything plot_all_DDGs hands to a backend master plot. -/
structure AllDDGsPlotData where
  xData : List ℚ
  yData : List ℚ
  xerr : List ℝ
  yerr : List ℝ

/-- plot_all_DDGs as a state-passing call (plotting.py lines 240-275): the
payload built from all pairwise differences of the node free energies,
paired with the graph node list after the call. -/
noncomputable def plotAllDDGsCall (graph : List NodeData) :
    AllDDGsPlotData × List NodeData :=
  (⟨pairDiffs (graph.map (·.f_i_exp)) graph.length,
    pairDiffs (graph.map (·.f_i_calc)) graph.length,
    pairErrs (graph.map (·.df_i_exp)) graph.length,
    pairErrs (graph.map (·.df_i_calc)) graph.length⟩,
   graph)

/-- Modelled from the spec: arithmetic mean over the reals.  The statistics
module stats.py is not among the visible sources; this definition and the
following ones, through bootstrap_statistic, follow the specification text
for the statistic estimator. -/
noncomputable def meanR (l : List ℝ) : ℝ := l.sum / l.length

/-- Modelled from the spec: population variance, the mean squared deviation
from the mean. -/
noncomputable def varR (l : List ℝ) : ℝ :=
  meanR (l.map fun v => (v - meanR l) ^ 2)

/-- Modelled from the spec: RMSE, the square root of the mean squared
difference between calculated and experimental values. -/
noncomputable def rmseR (x y : List ℝ) : ℝ :=
  Real.sqrt (meanR ((List.zipWith (fun b a => b - a) y x).map (· ^ 2)))

/-- Modelled from the spec: MUE, the mean absolute difference between
calculated and experimental values. -/
noncomputable def mueR (x y : List ℝ) : ℝ :=
  meanR ((List.zipWith (fun b a => b - a) y x).map (fun d => |d|))

/-- Modelled from the spec: covariance of two paired samples. -/
noncomputable def covR (x y : List ℝ) : ℝ :=
  meanR (List.zipWith (fun a b => (a - meanR x) * (b - meanR y)) x y)

/-- Modelled from the spec: Pearson linear correlation coefficient. -/
noncomputable def pearsonR (x y : List ℝ) : ℝ :=
  covR x y / Real.sqrt (varR x * varR y)

/-- Modelled from the spec: R2, the squared Pearson correlation. -/
noncomputable def r2R (x y : List ℝ) : ℝ := pearsonR x y ^ 2

open Classical in
/-- Modelled from the spec: average ranks of a sample, ties receiving the
mean of their rank range. -/
noncomputable def rankR (l : List ℝ) : List ℝ :=
  l.map fun v =>
    ((l.filter fun w => w < v).length : ℝ)
      + (((l.filter fun w => w = v).length : ℝ) + 1) / 2

/-- Modelled from the spec: Spearman rho, the Pearson correlation of the
rank sequences. -/
noncomputable def rhoR (x y : List ℝ) : ℝ := pearsonR (rankR x) (rankR y)

/-- Modelled from the spec: the metric dispatch of the statistic estimator
on the four supported metric names. -/
noncomputable def computeStatistic (statistic : Str) (x y : List ℝ) : ℝ :=
  if statistic = "RMSE".toList then rmseR x y
  else if statistic = "MUE".toList then mueR x y
  else if statistic = "R2".toList then r2R x y
  else rhoR x y

/-- The supported metric names of the statistic estimator. -/
def supportedMetrics : List Str :=
  ["RMSE".toList, "MUE".toList, "R2".toList, "rho".toList]

/-- Modelled from the spec: one bootstrap iteration worth of randomness,
the resampled indices and the standard Gaussian noise used to perturb the
drawn values. -/
structure Draw where
  idx : List Nat
  xNoise : List ℝ
  yNoise : List ℝ

/-- Modelled from the spec: a paired resample of one sequence, each drawn
value perturbed by its per-point uncertainty scaled noise when an
uncertainty sequence is given. -/
def resample (v : List ℝ) (err : Option (List ℝ)) (idx : List Nat)
    (noise : List ℝ) : List ℝ :=
  match err with
  | none => idx.map fun i => v.getD i 0
  | some e => (idx.zip noise).map fun p => v.getD p.1 0 + p.2 * e.getD p.1 0

/-- Modelled from the spec: nearest-rank percentile of a sample. -/
noncomputable def percentileR (p : ℝ) (l : List ℝ) : ℝ :=
  (l.mergeSort fun a b => decide (a ≤ b)).getD ⌊p / 100 * (l.length - 1)⌋₊ 0

/-- Whether an optional uncertainty sequence is present with the wrong
length. -/
def errLenBad (err : Option (List ℝ)) (n : Nat) : Bool :=
  match err with
  | none => false
  | some e => e.length != n

/-- The record returned by the statistic estimator. -/
structure StatResult where
  mle : ℝ
  low : ℝ
  high : ℝ

open Classical in
/-- Modelled from the spec: stats.bootstrap_statistic.  Shape violations
fail with ShapeMismatch, unsupported metric names with UnknownMetric, and
correlation metrics on a degenerate sample with UndefinedStatistic;
otherwise the mle is the metric on the unperturbed original sample and the
bounds are the 2.5th and 97.5th percentiles of the metric over the
resamples. -/
noncomputable def bootstrap_statistic (x y : List ℝ)
    (xerr yerr : Option (List ℝ)) (statistic : Str) (draws : List Draw) :
    Except StatsError StatResult :=
  if x.length ≠ y.length then .error .ShapeMismatch
  else if errLenBad xerr x.length then .error .ShapeMismatch
  else if errLenBad yerr y.length then .error .ShapeMismatch
  else if statistic ∉ supportedMetrics then .error .UnknownMetric
  else if (statistic = "R2".toList ∨ statistic = "rho".toList)
      ∧ (x.length < 2 ∨ varR x = 0 ∨ varR y = 0) then
    .error .UndefinedStatistic
  else
    let samples := draws.map fun d =>
      computeStatistic statistic (resample x xerr d.idx d.xNoise)
        (resample y yerr d.idx d.yNoise)
    .ok ⟨computeStatistic statistic x y,
      percentileR 2.5 samples, percentileR 97.5 samples⟩

section FindLemmas

variable (pat : Str)

theorem findFrom_shift (s : Str) : ∀ i, findFrom pat s i = (findFrom pat s 0).map (· + i) := by
  induction s with
  | nil =>
      intro i
      by_cases h : leadsWith pat [] = true <;> simp [findFrom, h]
  | cons c t ih =>
      intro i
      by_cases h : leadsWith pat (c :: t) = true
      · simp [findFrom, h]
      · simp only [findFrom, h, if_false, Bool.false_eq_true]
        rw [ih (i + 1), ih 1]
        cases findFrom pat t 0 with
        | none => simp
        | some j =>
            simp
            omega

theorem findFrom_isSome (s : Str) : ∀ i, (findFrom pat s i).isSome = occursIn pat s := by
  induction s with
  | nil =>
      intro i
      by_cases h : leadsWith pat [] = true <;> simp [findFrom, occursIn, h]
  | cons c t ih =>
      intro i
      by_cases h : leadsWith pat (c :: t) = true
      · simp [findFrom, occursIn, h]
      · simp [findFrom, occursIn, h, ih (i + 1)]

theorem pyFind_pos_iff (s : Str) :
    0 < pyFind s pat ↔ (occursIn pat s = true ∧ leadsWith pat s = false) := by
  by_cases h : leadsWith pat s = true
  · have h0 : findFrom pat s 0 = some 0 := by
      cases s <;> simp [findFrom, h]
    simp [pyFind, h0, h]
  · cases s with
    | nil =>
        have hocc : occursIn pat [] = false := by
          simpa [occursIn] using h
        simp [pyFind, findFrom, h, hocc]
    | cons c t =>
        have hstep : findFrom pat (c :: t) 0 = findFrom pat t 1 := by
          simp [findFrom, h]
        rw [findFrom_shift pat t 1] at hstep
        have hocc : occursIn pat (c :: t) = occursIn pat t := by
          simp [occursIn, h]
        have hsome := findFrom_isSome pat t 0
        cases hfind : findFrom pat t 0 with
        | none =>
            rw [hfind] at hstep hsome
            simp [pyFind, hstep, hocc, ← hsome]
        | some j =>
            rw [hfind] at hstep hsome
            simp only [Option.map] at hstep
            constructor
            · intro _
              exact ⟨by rw [hocc, ← hsome]; rfl, by simpa using h⟩
            · intro _
              simp [pyFind, hstep]

end FindLemmas

theorem piecesInOrder_nil (s : Str) : piecesInOrder s [] := by
  simp [piecesInOrder]

theorem piecesInOrder_append_left (a : Str) :
    ∀ (t : Str) (ps : List Str), piecesInOrder t ps → piecesInOrder (a ++ t) ps := by
  intro t ps h
  cases ps with
  | nil => exact piecesInOrder_nil _
  | cons p ps' =>
      simp only [piecesInOrder] at h ⊢
      obtain ⟨c, b, rfl, h'⟩ := h
      exact ⟨a ++ c, b, by simp [List.append_assoc], h'⟩

theorem piecesInOrder_statStrPlotting (est : Str → ℚ × ℚ × ℚ) :
    ∀ statistics : List Str,
      piecesInOrder (statisticsStringPlotting est statistics)
        (statistics.map fun s => statLinePlotting s (est s).1 (est s).2.1 (est s).2.2) := by
  intro statistics
  induction statistics with
  | nil => exact piecesInOrder_nil _
  | cons s rest ih =>
      simp only [statisticsStringPlotting, List.map, piecesInOrder]
      exact ⟨[], statisticsStringPlotting est rest, by simp, ih⟩

theorem piecesInOrder_statStrPlotlying (est : Str → ℚ × ℚ × ℚ) :
    ∀ statistics : List Str,
      piecesInOrder (statisticsStringPlotlying est statistics)
        (statistics.map fun s => statLinePlotlying s (est s).1 (est s).2.1 (est s).2.2) := by
  intro statistics
  induction statistics with
  | nil => exact piecesInOrder_nil _
  | cons s rest ih =>
      cases rest with
      | nil =>
          simp only [statisticsStringPlotlying, List.map, piecesInOrder]
          exact ⟨[], [], by simp, piecesInOrder_nil []⟩
      | cons s2 rest2 =>
          simp only [statisticsStringPlotlying, List.map, piecesInOrder]
          refine ⟨[], "<br>".toList ++ statisticsStringPlotlying est (s2 :: rest2), by
            simp [List.append_assoc], ?_⟩
          exact piecesInOrder_append_left _ _ _ (by simpa using ih)

theorem replicate_replicate_append {α : Type} (x : α) (a b : Nat) (t : List α) :
    List.replicate a x ++ (List.replicate b x ++ t)
      = List.replicate (a + b) x ++ t := by
  rw [← List.append_assoc, ← List.replicate_add]

theorem digitChar_isDigit : ∀ d, d < 10 → (Nat.digitChar d).isDigit = true := by decide

theorem pyF2_twoDecimals (q : ℚ) :
    ∃ pre d1 d2, pyF2 q = pre ++ ['.', d1, d2]
      ∧ d1.isDigit = true ∧ d2.isDigit = true := by
  refine ⟨(if q < 0 then ['-'] else [])
      ++ Nat.toDigits 10 ((roundHalfEven (q * 100)).natAbs / 100),
    Nat.digitChar ((roundHalfEven (q * 100)).natAbs / 10 % 10),
    Nat.digitChar ((roundHalfEven (q * 100)).natAbs % 10), ?_, ?_, ?_⟩
  · simp [pyF2, List.append_assoc]
  · exact digitChar_isDigit _ (Nat.mod_lt _ (by norm_num))
  · exact digitChar_isDigit _ (Nat.mod_lt _ (by norm_num))

theorem statLinePlotting_claimed (s : Str) (m l h : ℚ) :
    claimedStatLine unitPlotting s m l h (statLinePlotting s m l h) := by
  unfold claimedStatLine
  refine ⟨[' ', ' ', ' '], [], [], ['\x0a'],
    by intro c hc; simpa using hc,
    by intro c hc; simp at hc,
    by intro c hc; simp at hc, ?_⟩
  have h1 : (":   ".toList : Str) = [':'] ++ [' ', ' ', ' '] := by decide
  have h2 : ("\n".toList : Str) = ['\x0a'] := by decide
  simp [statLinePlotting, h1, h2, List.append_assoc]

theorem statLinePlotlying_claimed (s : Str) (m l h : ℚ) :
    claimedStatLine unitPlotlying s m l h (statLinePlotlying s m l h) := by
  unfold claimedStatLine
  refine ⟨List.replicate (5 - (s ++ [':']).length) ' '
      ++ List.replicate (5 - (pyF2 m).length) ' ',
    List.replicate (5 - (pyF2 l).length) ' ',
    List.replicate (5 - (pyF2 h).length) ' ', [], ?_, ?_, ?_, ?_⟩
  · intro c hc
    rcases List.mem_append.1 hc with h' | h' <;> exact List.eq_of_mem_replicate h'
  · intro c hc; exact List.eq_of_mem_replicate hc
  · intro c hc; exact List.eq_of_mem_replicate hc
  · have h1 : (":".toList : Str) = [':'] := by decide
    simp [statLinePlotlying, padRightTo, padLeftTo, h1, List.append_assoc,
      replicate_replicate_append]

theorem mem_combinations2 (n a b : Nat) :
    (a, b) ∈ combinations2 n ↔ a < b ∧ b < n := by
  simp only [combinations2, List.mem_flatMap, List.mem_map, List.mem_range,
    List.mem_range'_1, Prod.mk.injEq]
  constructor
  · rintro ⟨a', ha', b', ⟨hb1, hb2⟩, rfl, rfl⟩
    omega
  · rintro ⟨hab, hbn⟩
    exact ⟨a, by omega, b, by omega, rfl, rfl⟩

theorem length_combinations2 (n : Nat) :
    (combinations2 n).length * 2 = n * (n - 1) := by
  have h1 : (combinations2 n).length
      = ((List.range n).map fun a => n - (a + 1)).sum := by
    simp [combinations2, List.length_flatMap, Function.comp_def]
  have h2 : ((List.range n).map fun a => n - (a + 1)).sum
      = ∑ a in Finset.range n, (n - (a + 1)) := rfl
  have h3 : ∑ a in Finset.range n, (n - (a + 1))
      = ∑ a in Finset.range n, a := by
    have := Finset.sum_range_reflect (fun j => j) n
    refine Eq.trans ?_ this
    refine Finset.sum_congr rfl ?_
    intro a ha
    simp only [Finset.mem_range] at ha
    omega
  rw [h1, h2, h3, Finset.sum_range_id_mul_two]

theorem flatMap_pair_getElem {α β : Type} (l : List α) (u w : α → β) :
    ∀ i, ((l.flatMap fun a => [u a, w a])[2 * i]? = (l[i]?).map u)
      ∧ ((l.flatMap fun a => [u a, w a])[2 * i + 1]? = (l[i]?).map w) := by
  induction l with
  | nil => intro i; simp
  | cons a t ih =>
      intro i
      cases i with
      | zero => simp [List.flatMap_cons]
      | succ j =>
          have h2 : 2 * (j + 1) = 2 * j + 1 + 1 := by ring
          rw [h2]
          simp only [List.flatMap_cons, List.cons_append, List.nil_append,
            List.getElem?_cons_succ]
          exact ih j

theorem flatMap_pair_length {α β : Type} (l : List α) (u w : α → β) :
    (l.flatMap fun a => [u a, w a]).length = l.length * 2 := by
  induction l with
  | nil => simp
  | cons a t ih => simp [List.flatMap_cons, ih]; omega

theorem pairDiffs_length (v : List ℚ) (n : Nat) :
    (pairDiffs v n).length = n * (n - 1) := by
  have h := flatMap_pair_length (combinations2 n)
    (fun ab => v.getD ab.1 0 - v.getD ab.2 0)
    (fun ab => -(v.getD ab.1 0 - v.getD ab.2 0))
  rw [pairDiffs, h, length_combinations2]

theorem pairErrs_length (e : List ℚ) (n : Nat) :
    (pairErrs e n).length = n * (n - 1) := by
  have h := flatMap_pair_length (combinations2 n)
    (fun ab => Real.sqrt (((e.getD ab.1 0 : ℝ)) ^ 2 + ((e.getD ab.2 0 : ℝ)) ^ 2))
    (fun ab => Real.sqrt (((e.getD ab.1 0 : ℝ)) ^ 2 + ((e.getD ab.2 0 : ℝ)) ^ 2))
  rw [pairErrs, h, length_combinations2]

theorem sum_map_sub_const (l : List ℚ) (c : ℚ) :
    (l.map fun v => v - c).sum = l.sum - l.length * c := by
  induction l with
  | nil => simp
  | cons a t ih =>
      simp [ih]
      ring

theorem sum_centered (l : List ℚ) (hne : l ≠ []) :
    (l.map fun v => v - listMean l).sum = 0 := by
  rw [sum_map_sub_const, listMean]
  have hlen : (l.length : ℚ) ≠ 0 := by
    have h0 : l.length ≠ 0 := by
      simpa [List.length_eq_zero] using hne
    exact_mod_cast h0
  field_simp

theorem statLoop_first_error (est : Str → Except StatsError (ℚ × ℚ × ℚ)) :
    ∀ statistics : List Str,
      (∃ s ∈ statistics, ∃ e, est s = .error e) →
      ∃ s₁ ∈ statistics, ∃ e₁, est s₁ = .error e₁
        ∧ statLoopPlotting est statistics = .error e₁
        ∧ statLoopPlotlying est statistics = .error e₁ := by
  intro statistics
  induction statistics with
  | nil =>
      rintro ⟨s, hs, _⟩
      simp at hs
  | cons s rest ih =>
      rintro ⟨s', hs', e', he'⟩
      cases hest : est s with
      | error e =>
          exact ⟨s, by simp, e, hest, by simp [statLoopPlotting, hest],
            by simp [statLoopPlotlying, hest]⟩
      | ok r =>
          have hmem : ∃ t ∈ rest, ∃ e, est t = .error e := by
            rcases List.mem_cons.1 hs' with rfl | hmem'
            · rw [hest] at he'
              cases he'
            · exact ⟨s', hmem', e', he'⟩
          rcases ih hmem with ⟨s₁, hs₁, e₁, he₁, hl1, hl2⟩
          exact ⟨s₁, by simp [hs₁], e₁, he₁,
            by simp [statLoopPlotting, hest, hl1],
            by simp [statLoopPlotlying, hest, hl2]⟩

/-- C1 (counterexample): the plotly backend does not pass the held xerr and
yerr arrays on to the estimator: at a concrete input whose caller holds
uncertainty sequences, its estimator call carries None for both. -/
theorem C1_counterexample :
    ¬ (∀ c ∈ plotlyingEstimatorCalls [0, 1] [2, 3] (some [1, 1]) (some [1, 1])
        ["RMSE".toList], c.xerr = some [1, 1] ∧ c.yerr = some [1, 1]) := by
  decide

/-- C1 (amended): both backends make one estimator call per requested
statistic, in order, on the plotted x and y series; the matplotlib backend
passes the held xerr and yerr uncertainty sequences to every call, while the
plotly backend calls the estimator with x and y only, leaving xerr and yerr
at their None defaults, so the supplied measurement noise is not forwarded
there. -/
theorem C1_estimator_call_arguments :
    ∀ (x y : List ℚ) (xerr yerr : Option (List ℚ)) (statistics : List Str),
      (∀ c ∈ plottingEstimatorCalls x y xerr yerr statistics,
          c.x = x ∧ c.y = y ∧ c.xerr = xerr ∧ c.yerr = yerr)
      ∧ (∀ c ∈ plotlyingEstimatorCalls x y xerr yerr statistics,
          c.x = x ∧ c.y = y ∧ c.xerr = none ∧ c.yerr = none)
      ∧ (plottingEstimatorCalls x y xerr yerr statistics).map
          EstimatorCall.statistic = statistics
      ∧ (plotlyingEstimatorCalls x y xerr yerr statistics).map
          EstimatorCall.statistic = statistics := by
  intro x y xerr yerr statistics
  refine ⟨?_, ?_, ?_, ?_⟩
  · rintro c hc
    simp only [plottingEstimatorCalls, List.mem_map] at hc
    obtain ⟨s, _, rfl⟩ := hc
    exact ⟨rfl, rfl, rfl, rfl⟩
  · rintro c hc
    simp only [plotlyingEstimatorCalls, List.mem_map] at hc
    obtain ⟨s, _, rfl⟩ := hc
    exact ⟨rfl, rfl, rfl, rfl⟩
  · rw [plottingEstimatorCalls, List.map_map]
    exact List.map_id statistics
  · rw [plotlyingEstimatorCalls, List.map_map]
    exact List.map_id statistics

/-- C1 witness: the amended statement at a concrete input. -/
theorem C1_estimator_call_arguments_witness :
    (∀ c ∈ plottingEstimatorCalls [1] [2] (some [3]) (some [4]) ["MUE".toList],
        c.x = [1] ∧ c.y = [2] ∧ c.xerr = some [3] ∧ c.yerr = some [4])
    ∧ (∀ c ∈ plotlyingEstimatorCalls [1] [2] (some [3]) (some [4]) ["MUE".toList],
        c.x = [1] ∧ c.y = [2] ∧ c.xerr = none ∧ c.yerr = none)
    ∧ (plottingEstimatorCalls [1] [2] (some [3]) (some [4]) ["MUE".toList]).map
        EstimatorCall.statistic = ["MUE".toList]
    ∧ (plotlyingEstimatorCalls [1] [2] (some [3]) (some [4]) ["MUE".toList]).map
        EstimatorCall.statistic = ["MUE".toList] :=
  C1_estimator_call_arguments [1] [2] (some [3]) (some [4]) ["MUE".toList]

/-- C2 (counterexample): the export format is chosen by substring search,
not by extension: the filename a.html.png has extension .png, so the claim
demands a static image, but the code writes an interactive HTML document. -/
theorem C2_counterexample :
    plotlyingMasterExport (some "a.html.png".toList)
        = ExportAction.writeHtml "a.html.png".toList
    ∧ specExportByExtension (some "a.html.png".toList)
        = ExportAction.writeImage "a.html.png".toList
    ∧ extOf "a.html.png".toList = ".png".toList :=
  ⟨by decide, by decide, by decide⟩

/-- C2 (amended): for every plotly-backend export step a None filename shows
the figure; a non-None filename is written as an interactive HTML document
exactly when ".html" occurs in it at a positive index, i.e. occurs somewhere
in the filename without being its leading segment, and as a static image
otherwise; plot_bar and _master_plot share this rule. -/
theorem C2_export_rule :
    (∀ filename : Option Str,
        plotBarExport filename = plotlyingMasterExport filename)
    ∧ plotlyingMasterExport none = ExportAction.display
    ∧ ∀ s : Str,
        (plotlyingMasterExport (some s) = ExportAction.writeHtml s
          ↔ (occursIn htmlPat s = true ∧ leadsWith htmlPat s = false))
        ∧ (plotlyingMasterExport (some s) = ExportAction.writeImage s
          ↔ ¬ (occursIn htmlPat s = true ∧ leadsWith htmlPat s = false)) := by
  refine ⟨fun _ => rfl, rfl, fun s => ?_⟩
  rw [← pyFind_pos_iff htmlPat s]
  by_cases h : 0 < pyFind s htmlPat
  · simp [plotlyingMasterExport, h]
  · simp [plotlyingMasterExport, h]

/-- C2 witness: the amended export rule at a concrete filename. -/
theorem C2_export_rule_witness :
    plotlyingMasterExport (some "plot.html".toList)
      = ExportAction.writeHtml "plot.html".toList :=
  ((C2_export_rule.2.2 "plot.html".toList).1).mpr (by decide)

/-- C6: plot_DDGs, plot_DGs and plot_all_DDGs leave their data source
unchanged: each call passes the input list through untouched, and a repeated
call on the unchanged source reads identical data. -/
theorem C6_inputs_unchanged :
    ∀ (results : List RelativeResult) (mapPositive symmetrise : Bool)
      (graph : List NodeData),
      (plotDDGsCall results mapPositive symmetrise).2 = results
      ∧ (plotDGsCall graph).2 = graph
      ∧ (plotAllDDGsCall graph).2 = graph
      ∧ plotDDGsCall ((plotDDGsCall results mapPositive symmetrise).2)
          mapPositive symmetrise = plotDDGsCall results mapPositive symmetrise
      ∧ plotDGsCall ((plotDGsCall graph).2) = plotDGsCall graph
      ∧ plotAllDDGsCall ((plotAllDDGsCall graph).2) = plotAllDDGsCall graph :=
  fun _ _ _ _ => ⟨rfl, rfl, rfl, rfl, rfl, rfl⟩

/-- C10: with map_positive false, plot_DDGs plots the raw pairs in input
order regardless of symmetrise; the symmetrise duplication appends the
negation of every pair and takes effect only with map_positive true; and
with map_positive true and symmetrise false every plotted x value is
non-negative. -/
theorem C10_plotDDGs_branches :
    ∀ (results : List RelativeResult) (symmetrise : Bool),
      plotDDGsData results false symmetrise
        = (results.map (·.exp_DDG), results.map (·.calc_DDG))
      ∧ plotDDGsData results true true
        = (results.map (·.exp_DDG)
              ++ (results.map (·.exp_DDG)).map (fun v => -v),
           results.map (·.calc_DDG)
              ++ (results.map (·.calc_DDG)).map (fun v => -v))
      ∧ ∀ v ∈ (plotDDGsData results true false).1, 0 ≤ v := by
  intro results symmetrise
  refine ⟨by simp [plotDDGsData], by simp [plotDDGsData, List.map_map], ?_⟩
  intro v hv
  simp only [plotDDGsData, Bool.not_true, if_false, Bool.false_eq_true,
    if_neg, List.mem_map] at hv
  obtain ⟨r, _, rfl⟩ := hv
  split_ifs with hr
  · linarith
  · linarith

/-- C10 witness: a record with negative experimental value is reflected to a
non-negative plotted x value. -/
theorem C10_plotDDGs_branches_witness :
    ((1 : ℚ) ∈ (plotDDGsData [⟨-1, 5, 0, 0, 0, [], []⟩] true false).1)
    ∧ (0 : ℚ) ≤ 1 :=
  have hmem : (1 : ℚ) ∈ (plotDDGsData [⟨-1, 5, 0, 0, 0, [], []⟩] true false).1 := by
    decide
  ⟨hmem, (C10_plotDDGs_branches [⟨-1, 5, 0, 0, 0, [], []⟩] false).2.2 1 hmem⟩

/-- C4: if the estimator fails for a requested statistic, both backend
master plots propagate an estimator error synchronously to the caller and
return no outcome, so no figure is displayed and no file is written: the
export step lies after the statistics loop. -/
theorem C4_estimator_error_propagates :
    ∀ (x : List ℚ) (title targetName : Str)
      (est : Str → Except StatsError (ℚ × ℚ × ℚ)) (statistics : List Str)
      (filename : Option Str) (s : Str) (e : StatsError),
      s ∈ statistics → est s = .error e →
      ∃ s₁ ∈ statistics, ∃ e₁, est s₁ = .error e₁
        ∧ masterPlotRunPlotting x title targetName est statistics filename
            = .error e₁
        ∧ masterPlotRunPlotlying x title targetName est statistics filename
            = .error e₁
        ∧ (∀ o, masterPlotRunPlotting x title targetName est statistics filename
            ≠ .ok o)
        ∧ (∀ o, masterPlotRunPlotlying x title targetName est statistics filename
            ≠ .ok o) := by
  intro x title targetName est statistics filename s e hs he
  rcases statLoop_first_error est statistics ⟨s, hs, e, he⟩
    with ⟨s₁, hs₁, e₁, he₁, hl1, hl2⟩
  refine ⟨s₁, hs₁, e₁, he₁, ?_, ?_, ?_, ?_⟩
  · simp [masterPlotRunPlotting, hl1]
  · simp [masterPlotRunPlotlying, hl2]
  · intro o
    simp [masterPlotRunPlotting, hl1]
  · intro o
    simp [masterPlotRunPlotlying, hl2]

/-- C4 witness: a failing estimator at a concrete call. -/
theorem C4_estimator_error_propagates_witness :
    ∃ s₁ ∈ ["RMSE".toList], ∃ e₁,
      (fun _ : Str =>
        (Except.error StatsError.UnknownMetric : Except StatsError (ℚ × ℚ × ℚ))) s₁
        = .error e₁
      ∧ masterPlotRunPlotting [] [] []
          (fun _ => .error StatsError.UnknownMetric) ["RMSE".toList] none
          = .error e₁
      ∧ masterPlotRunPlotlying [] [] []
          (fun _ => .error StatsError.UnknownMetric) ["RMSE".toList] none
          = .error e₁
      ∧ (∀ o, masterPlotRunPlotting [] [] []
          (fun _ => .error StatsError.UnknownMetric) ["RMSE".toList] none
          ≠ .ok o)
      ∧ (∀ o, masterPlotRunPlotlying [] [] []
          (fun _ => .error StatsError.UnknownMetric) ["RMSE".toList] none
          ≠ .ok o) :=
  C4_estimator_error_propagates [] [] []
    (fun _ => .error StatsError.UnknownMetric) ["RMSE".toList] none
    "RMSE".toList StatsError.UnknownMetric (by simp) rfl

/-- C5: each backend figure title holds, for every requested statistic in
the order given, one line built from the three estimator floats; every such
line is the metric name, a colon, the mle, the bracketed 95 percent bounds
and a kcal/mol unit marker, and the three numbers are rendered with exactly
two digits after the decimal point. -/
theorem C5_title_statistics_lines :
    ∀ (title targetName : Str) (nsamples : Nat) (est : Str → ℚ × ℚ × ℚ)
      (statistics : List Str),
      piecesInOrder (longTitlePlotting title targetName nsamples est statistics)
        (statistics.map fun s =>
          statLinePlotting s (est s).1 (est s).2.1 (est s).2.2)
      ∧ piecesInOrder (longTitlePlotlying title targetName nsamples est statistics)
        (statistics.map fun s =>
          statLinePlotlying s (est s).1 (est s).2.1 (est s).2.2)
      ∧ (∀ s mle low high, claimedStatLine unitPlotting s mle low high
          (statLinePlotting s mle low high))
      ∧ (∀ s mle low high, claimedStatLine unitPlotlying s mle low high
          (statLinePlotlying s mle low high))
      ∧ (∀ q : ℚ, ∃ pre d1 d2, pyF2 q = pre ++ ['.', d1, d2]
          ∧ d1.isDigit = true ∧ d2.isDigit = true) := by
  intro title targetName nsamples est statistics
  refine ⟨?_, ?_,
    fun s mle low high => statLinePlotting_claimed s mle low high,
    fun s mle low high => statLinePlotlying_claimed s mle low high,
    pyF2_twoDecimals⟩
  · have h := piecesInOrder_append_left
      (title ++ " \n ".toList ++ targetName ++ " (N = ".toList
        ++ Nat.toDigits 10 nsamples ++ ") \n ".toList) _ _
      (piecesInOrder_statStrPlotting est statistics)
    simpa [longTitlePlotting, List.append_assoc] using h
  · have h := piecesInOrder_append_left
      (title ++ "<br>".toList ++ targetName ++ " (N = ".toList
        ++ Nat.toDigits 10 nsamples ++ ")<br>".toList) _ _
      (piecesInOrder_statStrPlotlying est statistics)
    simpa [longTitlePlotlying, List.append_assoc] using h

/-- C5 witness: the statement at a concrete call. -/
theorem C5_title_statistics_lines_witness :
    piecesInOrder (longTitlePlotting [] [] 0 (fun _ => (0, 0, 0)) ["RMSE".toList])
      (["RMSE".toList].map fun s =>
        statLinePlotting s ((fun _ : Str => ((0 : ℚ), (0 : ℚ), (0 : ℚ))) s).1
          ((fun _ : Str => ((0 : ℚ), (0 : ℚ), (0 : ℚ))) s).2.1
          ((fun _ : Str => ((0 : ℚ), (0 : ℚ), (0 : ℚ))) s).2.2) :=
  (C5_title_statistics_lines [] [] 0 (fun _ => (0, 0, 0)) ["RMSE".toList]).1

/-- C8: plot_DGs does not hand on the stored node free energies: both series
are shifted by their arithmetic mean before plotting and scoring, so for a
nonempty graph the x and y data passed to the backend and scored by the four
requested statistics each sum to zero. -/
theorem C8_plotDGs_mean_centered :
    ∀ graph : List NodeData, graph ≠ [] →
      (plotDGsCall graph).1.xData
          = (graph.map (·.f_i_exp)).map
              (fun v => v - listMean (graph.map (·.f_i_exp)))
      ∧ (plotDGsCall graph).1.yData
          = (graph.map (·.f_i_calc)).map
              (fun v => v - listMean (graph.map (·.f_i_calc)))
      ∧ (plotDGsCall graph).1.xData.sum = 0
      ∧ (plotDGsCall graph).1.yData.sum = 0
      ∧ (plotDGsCall graph).1.statistics
          = ["RMSE".toList, "MUE".toList, "R2".toList, "rho".toList] := by
  intro graph hg
  have hx : graph.map (·.f_i_exp) ≠ [] := by
    simpa [List.map_eq_nil_iff] using hg
  have hy : graph.map (·.f_i_calc) ≠ [] := by
    simpa [List.map_eq_nil_iff] using hg
  exact ⟨rfl, rfl, sum_centered _ hx, sum_centered _ hy, rfl⟩

/-- C8 witness: a concrete two-node graph is nonempty and its centered x
series sums to zero. -/
theorem C8_plotDGs_mean_centered_witness :
    ([⟨1, 2, 0, 0⟩, ⟨3, 5, 0, 0⟩] : List NodeData) ≠ []
    ∧ (plotDGsCall [⟨1, 2, 0, 0⟩, ⟨3, 5, 0, 0⟩]).1.xData.sum = 0 :=
  ⟨by decide,
    ((C8_plotDGs_mean_centered [⟨1, 2, 0, 0⟩, ⟨3, 5, 0, 0⟩]) (by decide)).2.2.1⟩

/-- C9: plot_all_DDGs plots exactly n(n-1) points for n nodes: the index
pairs are precisely the pairs a < b < n, and for the i-th pair the entries
at positions 2i and 2i+1 of every series are the difference of the node
values and its negation, both recorded with the same error computed in
quadrature from the two node uncertainties, so the plotted dataset is
symmetric under negation. -/
theorem C9_plotAllDDGs_pairs :
    ∀ graph : List NodeData,
      (plotAllDDGsCall graph).1.xData.length
          = graph.length * (graph.length - 1)
      ∧ (plotAllDDGsCall graph).1.yData.length
          = graph.length * (graph.length - 1)
      ∧ (plotAllDDGsCall graph).1.xerr.length
          = graph.length * (graph.length - 1)
      ∧ (plotAllDDGsCall graph).1.yerr.length
          = graph.length * (graph.length - 1)
      ∧ (∀ a b, ((a, b) ∈ combinations2 graph.length
          ↔ a < b ∧ b < graph.length))
      ∧ ∀ i a b, (combinations2 graph.length)[i]? = some (a, b) →
          (plotAllDDGsCall graph).1.xData[2 * i]?
              = some ((graph.map (·.f_i_exp)).getD a 0
                  - (graph.map (·.f_i_exp)).getD b 0)
          ∧ (plotAllDDGsCall graph).1.xData[2 * i + 1]?
              = some (-((graph.map (·.f_i_exp)).getD a 0
                  - (graph.map (·.f_i_exp)).getD b 0))
          ∧ (plotAllDDGsCall graph).1.yData[2 * i]?
              = some ((graph.map (·.f_i_calc)).getD a 0
                  - (graph.map (·.f_i_calc)).getD b 0)
          ∧ (plotAllDDGsCall graph).1.yData[2 * i + 1]?
              = some (-((graph.map (·.f_i_calc)).getD a 0
                  - (graph.map (·.f_i_calc)).getD b 0))
          ∧ (plotAllDDGsCall graph).1.xerr[2 * i]?
              = some (Real.sqrt ((((graph.map (·.df_i_exp) : List ℚ).getD a 0 : ℝ)) ^ 2
                  + (((graph.map (·.df_i_exp) : List ℚ).getD b 0 : ℝ)) ^ 2))
          ∧ (plotAllDDGsCall graph).1.xerr[2 * i + 1]?
              = some (Real.sqrt ((((graph.map (·.df_i_exp) : List ℚ).getD a 0 : ℝ)) ^ 2
                  + (((graph.map (·.df_i_exp) : List ℚ).getD b 0 : ℝ)) ^ 2))
          ∧ (plotAllDDGsCall graph).1.yerr[2 * i]?
              = some (Real.sqrt ((((graph.map (·.df_i_calc) : List ℚ).getD a 0 : ℝ)) ^ 2
                  + (((graph.map (·.df_i_calc) : List ℚ).getD b 0 : ℝ)) ^ 2))
          ∧ (plotAllDDGsCall graph).1.yerr[2 * i + 1]?
              = some (Real.sqrt ((((graph.map (·.df_i_calc) : List ℚ).getD a 0 : ℝ)) ^ 2
                  + (((graph.map (·.df_i_calc) : List ℚ).getD b 0 : ℝ)) ^ 2)) := by
  intro graph
  refine ⟨pairDiffs_length _ _, pairDiffs_length _ _, pairErrs_length _ _,
    pairErrs_length _ _, fun a b => mem_combinations2 _ a b, ?_⟩
  intro i a b hi
  have hxd := flatMap_pair_getElem (combinations2 graph.length)
    (fun ab => (graph.map (·.f_i_exp)).getD ab.1 0
        - (graph.map (·.f_i_exp)).getD ab.2 0)
    (fun ab => -((graph.map (·.f_i_exp)).getD ab.1 0
        - (graph.map (·.f_i_exp)).getD ab.2 0)) i
  have hyd := flatMap_pair_getElem (combinations2 graph.length)
    (fun ab => (graph.map (·.f_i_calc)).getD ab.1 0
        - (graph.map (·.f_i_calc)).getD ab.2 0)
    (fun ab => -((graph.map (·.f_i_calc)).getD ab.1 0
        - (graph.map (·.f_i_calc)).getD ab.2 0)) i
  have hxe := flatMap_pair_getElem (combinations2 graph.length)
    (fun ab => Real.sqrt ((((graph.map (·.df_i_exp) : List ℚ).getD ab.1 0 : ℝ)) ^ 2
        + (((graph.map (·.df_i_exp) : List ℚ).getD ab.2 0 : ℝ)) ^ 2))
    (fun ab => Real.sqrt ((((graph.map (·.df_i_exp) : List ℚ).getD ab.1 0 : ℝ)) ^ 2
        + (((graph.map (·.df_i_exp) : List ℚ).getD ab.2 0 : ℝ)) ^ 2)) i
  have hye := flatMap_pair_getElem (combinations2 graph.length)
    (fun ab => Real.sqrt ((((graph.map (·.df_i_calc) : List ℚ).getD ab.1 0 : ℝ)) ^ 2
        + (((graph.map (·.df_i_calc) : List ℚ).getD ab.2 0 : ℝ)) ^ 2))
    (fun ab => Real.sqrt ((((graph.map (·.df_i_calc) : List ℚ).getD ab.1 0 : ℝ)) ^ 2
        + (((graph.map (·.df_i_calc) : List ℚ).getD ab.2 0 : ℝ)) ^ 2)) i
  rw [hi] at hxd hyd hxe hye
  exact ⟨hxd.1, hxd.2, hyd.1, hyd.2, hxe.1, hxe.2, hye.1, hye.2⟩

/-- C9 witness: the statement at a concrete two-node graph and its single
index pair. -/
theorem C9_plotAllDDGs_pairs_witness :
    ((combinations2 (([⟨0, 0, 3, 0⟩, ⟨1, 2, 4, 0⟩] : List NodeData)).length)[0]?
        = some (0, 1))
    ∧ (plotAllDDGsCall [⟨0, 0, 3, 0⟩, ⟨1, 2, 4, 0⟩]).1.xData[2 * 0]?
        = some ((([⟨0, 0, 3, 0⟩, ⟨1, 2, 4, 0⟩] : List NodeData).map
              (·.f_i_exp)).getD 0 0
            - (([⟨0, 0, 3, 0⟩, ⟨1, 2, 4, 0⟩] : List NodeData).map
              (·.f_i_exp)).getD 1 0) :=
  ⟨by decide,
    ((C9_plotAllDDGs_pairs [⟨0, 0, 3, 0⟩, ⟨1, 2, 4, 0⟩]).2.2.2.2.2 0 0 1
      (by decide)).1⟩

/-- C7: on sequences of unequal length the estimator fails with
ShapeMismatch for every requested metric name, supported or not, before any
statistic is computed (modelled from the spec, the stats module not being
among the visible sources). -/
theorem C7_shape_mismatch :
    ∀ (x y : List ℝ) (xerr yerr : Option (List ℝ)) (statistic : Str)
      (draws : List Draw),
      x.length ≠ y.length →
      bootstrap_statistic x y xerr yerr statistic draws
        = .error StatsError.ShapeMismatch := by
  intro x y xerr yerr statistic draws h
  rw [bootstrap_statistic, if_pos h]

/-- C7 witness: x of length 3 against y of length 2. -/
theorem C7_shape_mismatch_witness :
    (([0, 1, 2] : List ℝ).length ≠ ([0, 1] : List ℝ).length)
    ∧ bootstrap_statistic [0, 1, 2] [0, 1] none none "RMSE".toList []
        = .error StatsError.ShapeMismatch :=
  ⟨by decide,
    C7_shape_mismatch [0, 1, 2] [0, 1] none none "RMSE".toList [] (by decide)⟩

/-- C3: for two or more matching points and any supported metric whose
preconditions hold, the mle returned by the estimator is the metric applied
to the unperturbed original sample, whatever the resampling stream (modelled
from the spec, the stats module not being among the visible sources). -/
theorem C3_mle_unperturbed_original :
    ∀ (x y : List ℝ) (xerr yerr : Option (List ℝ)) (statistic : Str)
      (draws : List Draw),
      statistic ∈ supportedMetrics →
      2 ≤ x.length →
      x.length = y.length →
      errLenBad xerr x.length = false →
      errLenBad yerr y.length = false →
      ((statistic = "R2".toList ∨ statistic = "rho".toList)
        → varR x ≠ 0 ∧ varR y ≠ 0) →
      (bootstrap_statistic x y xerr yerr statistic draws).map StatResult.mle
        = .ok (computeStatistic statistic x y) := by
  intro x y xerr yerr statistic draws hmem hlen hxy hex hey hdeg
  have h1 : ¬ (x.length ≠ y.length) := by simp [hxy]
  have h2 : ¬ (errLenBad xerr x.length = true) := by simp [hex]
  have h3 : ¬ (errLenBad yerr y.length = true) := by simp [hey]
  have h4 : ¬ (statistic ∉ supportedMetrics) := by simp [hmem]
  have h5 : ¬ ((statistic = "R2".toList ∨ statistic = "rho".toList)
      ∧ (x.length < 2 ∨ varR x = 0 ∨ varR y = 0)) := by
    rintro ⟨hm, hd⟩
    rcases hdeg hm with ⟨hvx, hvy⟩
    rcases hd with hd | hd | hd
    · omega
    · exact hvx hd
    · exact hvy hd
  rw [bootstrap_statistic, if_neg h1, if_neg h2, if_neg h3, if_neg h4,
    if_neg h5]
  rfl

/-- C3 witness: the perfect three-point sample with the R2 metric and an
empty resampling stream. -/
theorem C3_mle_unperturbed_original_witness :
    ("R2".toList ∈ supportedMetrics)
    ∧ 2 ≤ ([0, 1, 2] : List ℝ).length
    ∧ (([0, 1, 2] : List ℝ).length = ([0, 1, 2] : List ℝ).length)
    ∧ errLenBad none ([0, 1, 2] : List ℝ).length = false
    ∧ (varR ([0, 1, 2] : List ℝ) ≠ 0 ∧ varR ([0, 1, 2] : List ℝ) ≠ 0)
    ∧ (bootstrap_statistic [0, 1, 2] [0, 1, 2] none none "R2".toList []).map
        StatResult.mle
      = .ok (computeStatistic "R2".toList [0, 1, 2] [0, 1, 2]) :=
  have hvar : varR ([0, 1, 2] : List ℝ) ≠ 0 := by
    simp [varR, meanR]
    norm_num
  ⟨by decide, by decide, rfl, rfl, ⟨hvar, hvar⟩,
    C3_mle_unperturbed_original [0, 1, 2] [0, 1, 2] none none "R2".toList []
      (by decide) (by decide) rfl rfl rfl (fun _ => ⟨hvar, hvar⟩)⟩
